import Mathlib

/-!
Shallow embedding of the RabbitMQ consumer engine (pedrofnts/consumer) and
proofs about it.  Each definition mirrors one function of the source:
`src/utils/helpers.js`, `src/services/RabbitMQService.js`,
`src/services/DeduplicationService.js`, `src/services/WebhookService.js`,
`src/services/MessageProcessor.js`, `src/services/ReconnectionService.js`,
`src/services/ConsumerService.js` and `src/controllers/QueueController.js`.
External effects (the axios HTTP client, the amqplib channel, JSON.parse and
the wall clock) are modelled as explicit outcome parameters; everything else
is translated statement by statement.
-/

namespace Consumer

/-! ### helpers.js -/

/-- JS `v || d` for an optional numeric argument: `undefined`, `null` and `0`
are falsy and select the default. -/
def jsOrDefault (v : Option Int) (d : Int) : Int :=
  match v with
  | none => d
  | some x => if x = 0 then d else x

/-- config.business.defaultIntervals.min (config.js). -/
def defaultIntervalMin : Int := 30000

/-- config.business.defaultIntervals.max (config.js). -/
def defaultIntervalMax : Int := 110000

/-- Embeds helpers.sanitizeIntervals:
`min = Math.max(1000, minInterval || default.min)`,
`max = Math.max(min + 1000, maxInterval || default.max)`. -/
def sanitizeIntervals (minInterval maxInterval : Option Int) : Int × Int :=
  let lo := max 1000 (jsOrDefault minInterval defaultIntervalMin)
  let hi := max (lo + 1000) (jsOrDefault maxInterval defaultIntervalMax)
  (lo, hi)

/-- Business-hours window; the JS object `{ start, end }` (`end` is a Lean
keyword, so the fields are named startHour/endHour as in the spec). -/
structure BusinessHours where
  startHour : Int
  endHour : Int
deriving DecidableEq, Repr

/-- config.business.defaultBusinessHours (config.js). -/
def defaultBusinessHours : BusinessHours := ⟨8, 21⟩

/-- Embeds helpers.isWithinBusinessHours.  The current hour in the configured
timezone is an input (the wall clock is external). -/
def isWithinBusinessHours (businessHours : Option BusinessHours) (hour : Int) : Bool :=
  let bh := businessHours.getD defaultBusinessHours
  decide (bh.startHour ≤ hour) && decide (hour < bh.endHour)

/-- Whether the first character list is a prefix of the second
(JS `String.startsWith`). -/
def charsPrefix : List Char → List Char → Bool
  | [], _ => true
  | _ :: _, [] => false
  | a :: as, b :: bs => a == b && charsPrefix as bs

/-- Embeds helpers.isValidUrl.  `new URL(s)` succeeding together with the
scheme test is modelled as the scheme test plus a nonempty remainder; strings
without an http(s) scheme fail the JS test as well. -/
def isValidUrl (s : String) : Bool :=
  (charsPrefix "http://".toList s.toList && decide (7 < s.length)) ||
  (charsPrefix "https://".toList s.toList && decide (8 < s.length))

/-- JS `String.trim` on the character list. -/
def trimChars (l : List Char) : List Char :=
  ((l.dropWhile Char.isWhitespace).reverse.dropWhile Char.isWhitespace).reverse

/-- Embeds helpers.isValidQueueName: a string whose trim is nonempty.
`none` stands for a missing / non-string value. -/
def isValidQueueName (queue : Option String) : Bool :=
  match queue with
  | some s => !(trimChars s.toList).isEmpty
  | none => false

/-! ### Message fingerprints (helpers.generateMessageId) -/

/-- Delivery metadata attached by the broker (`msg.fields`). -/
structure MsgFields where
  deliveryTag : Nat
deriving DecidableEq, Repr

/-- A delivery: broker fields plus the payload bytes, kept as the string the
source obtains via `msg.content.toString()`. -/
structure Message where
  fields : MsgFields
  content : String
deriving DecidableEq, Repr

/-- UTF-8 bytes of one code point (what `Buffer.from(content)` produces). -/
def utf8Bytes (c : Nat) : List Nat :=
  if c < 128 then [c]
  else if c < 2048 then [192 + c / 64, 128 + c % 64]
  else if c < 65536 then [224 + c / 4096, 128 + c / 64 % 64, 128 + c % 64]
  else [240 + c / 262144, 128 + c / 4096 % 64, 128 + c / 64 % 64, 128 + c % 64]

/-- UTF-8 byte sequence of a string. -/
def strBytes (s : String) : List Nat :=
  s.data.flatMap (fun c => utf8Bytes c.toNat)

/-- The base64 alphabet. -/
def b64Char (n : Nat) : Char :=
  "ABCDEFGHIJKLMNOPQRSTUVWXYZabcdefghijklmnopqrstuvwxyz0123456789+/".toList.getD n 'A'

/-- Standard base64 of a byte list, with padding, three bytes per group
(`Buffer.toString('base64')`). -/
def b64Groups : List Nat → List Char
  | [] => []
  | [b1] => [b64Char (b1 / 4), b64Char (b1 % 4 * 16), '=', '=']
  | [b1, b2] => [b64Char (b1 / 4), b64Char (b1 % 4 * 16 + b2 / 16), b64Char (b2 % 16 * 4), '=']
  | b1 :: b2 :: b3 :: rest =>
      b64Char (b1 / 4) :: b64Char (b1 % 4 * 16 + b2 / 16) ::
      b64Char (b2 % 16 * 4 + b3 / 64) :: b64Char (b3 % 64) :: b64Groups rest

/-- Base64 of a string's UTF-8 bytes. -/
def base64Encode (s : String) : String :=
  String.mk (b64Groups (strBytes s))

/-- config.deduplication.messageIdTruncateLength (config.js). -/
def messageIdTruncateLength : Nat := 20

/-- Embeds helpers.generateMessageId for a non-null delivery:
`"<deliveryTag>_" + base64(content).slice(0, 20)`, with the catch fallback
`"<deliveryTag>_" + Date.now()` when the computation throws
(`fpThrows` injects that failure, `nowMs` is the clock). -/
def generateMessageId (fpThrows : Bool) (nowMs : Nat) (m : Message) : String :=
  if fpThrows then
    toString m.fields.deliveryTag ++ "_" ++ toString nowMs
  else
    toString m.fields.deliveryTag ++ "_" ++ (base64Encode m.content).take messageIdTruncateLength

/-! ### DeduplicationService.js -/

/-- Metadata stored for an in-flight delivery
(`{ startTime, queue, deliveryTag, webhook }`). -/
structure ProcessingInfo where
  startTime : Nat
  queue : String
  deliveryTag : Nat
  webhook : String
deriving DecidableEq, Repr

/-- The two deduplication containers: the JS `Set` of processed fingerprints
(insertion ordered) and the JS `Map` of in-flight fingerprints. -/
structure DedupState where
  processedMessages : List String
  processingMessages : List (String × ProcessingInfo)
deriving DecidableEq, Repr

/-- JS `Map.set`: replace in place, or append a new entry. -/
def mapSet (k : String) (v : ProcessingInfo) :
    List (String × ProcessingInfo) → List (String × ProcessingInfo)
  | [] => [(k, v)]
  | (k', v') :: rest => if k' = k then (k, v) :: rest else (k', v') :: mapSet k v rest

/-- Embeds DeduplicationService.isMessageProcessed. -/
def isMessageProcessed (messageId : String) (s : DedupState) : Bool :=
  s.processedMessages.contains messageId

/-- Embeds DeduplicationService.markMessageProcessed (JS `Set.add`). -/
def markMessageProcessed (messageId : String) (s : DedupState) : DedupState :=
  { s with processedMessages :=
      if s.processedMessages.contains messageId then s.processedMessages
      else s.processedMessages ++ [messageId] }

/-- Embeds DeduplicationService.markMessageProcessing. -/
def markMessageProcessing (messageId : String) (info : ProcessingInfo) (s : DedupState) :
    DedupState :=
  { s with processingMessages := mapSet messageId info s.processingMessages }

/-- Embeds DeduplicationService.removeMessageFromProcessing (JS `Map.delete`). -/
def removeMessageFromProcessing (messageId : String) (s : DedupState) : DedupState :=
  { s with processingMessages := s.processingMessages.filter (fun p => p.1 != messageId) }

/-! ### RabbitMQService.js -/

/-- Closing/closed flags of an amqplib connection or channel object. -/
structure ChannelLike where
  closing : Bool
  closed : Bool
deriving DecidableEq, Repr

/-- The fields of RabbitMQService consulted by isChannelReady. -/
structure RabbitState where
  connection : Option ChannelLike
  channel : Option ChannelLike
  shuttingDown : Bool
deriving DecidableEq, Repr

/-- Embeds RabbitMQService.isChannelReady: both objects present, neither
closing nor closed, and not shutting down. -/
def isChannelReady (s : RabbitState) : Bool :=
  match s.channel, s.connection with
  | some ch, some conn =>
      !ch.closing && !ch.closed && !conn.closing && !conn.closed && !s.shuttingDown
  | _, _ => false

/-- An error thrown by an amqplib channel operation: optional AMQP reply code
plus the message text. -/
structure AmqpError where
  code : Option Nat
  message : String
deriving DecidableEq, Repr

/-- Whether the first character list occurs inside the second. -/
def charsInfix (needle : List Char) : List Char → Bool
  | [] => needle.isEmpty
  | c :: rest => charsPrefix needle (c :: rest) || charsInfix needle rest

/-- JS `String.includes`. -/
def containsSubstr (hay needle : String) : Bool :=
  charsInfix needle.toList hay.toList

/-- Events a RabbitMQService method may emit while handling an operation. -/
inductive RabbitEvent
  | needsReconnection
deriving DecidableEq, Repr

/-- What the underlying `channel.ack` / `channel.nack` call does when invoked:
it either succeeds or throws an error. -/
inductive ChannelOutcome
  | ok
  | err (e : AmqpError)
deriving DecidableEq, Repr

/-- A broker channel operation actually issued. -/
inductive ChannelOp
  | ack (deliveryTag : Nat)
  | nack (deliveryTag : Nat) (allUpTo requeue : Bool)
deriving DecidableEq, Repr

/-- Result of ackMessage / nackMessage: the channel calls issued, the events
emitted, and the exception propagated to the caller (if any). -/
structure AckNackResult where
  channelOps : List ChannelOp
  emitted : List RabbitEvent
  thrown : Option AmqpError
deriving DecidableEq, Repr

/-- Embeds RabbitMQService.ackMessage.  Null messages return immediately; the
ack is only attempted when the channel is ready; the catch block returns for
406 delivery-tag errors and also falls through without rethrow or emit for
every other error. -/
def ackMessage (msg : Option Message) (s : RabbitState) (outcome : ChannelOutcome) :
    AckNackResult :=
  match msg with
  | none => ⟨[], [], none⟩
  | some m =>
    if isChannelReady s then
      match outcome with
      | .ok => ⟨[.ack m.fields.deliveryTag], [], none⟩
      | .err e =>
        if e.code == some 406 && containsSubstr e.message "delivery tag" then
          ⟨[.ack m.fields.deliveryTag], [], none⟩
        else
          ⟨[.ack m.fields.deliveryTag], [], none⟩
    else ⟨[], [], none⟩

/-- Embeds RabbitMQService.nackMessage; same shape as ackMessage with the
`allUpTo` / `requeue` arguments. -/
def nackMessage (msg : Option Message) (allUpTo requeue : Bool) (s : RabbitState)
    (outcome : ChannelOutcome) : AckNackResult :=
  match msg with
  | none => ⟨[], [], none⟩
  | some m =>
    if isChannelReady s then
      match outcome with
      | .ok => ⟨[.nack m.fields.deliveryTag allUpTo requeue], [], none⟩
      | .err e =>
        if e.code == some 406 && containsSubstr e.message "delivery tag" then
          ⟨[.nack m.fields.deliveryTag allUpTo requeue], [], none⟩
        else
          ⟨[.nack m.fields.deliveryTag allUpTo requeue], [], none⟩
    else ⟨[], [], none⟩

/-- The connection-level substrings of RabbitMQService._shouldTriggerReconnection. -/
def connectionErrorPatterns : List String :=
  ["Channel closed", "Connection closed", "Connection lost", "Socket closed",
   "ECONNRESET", "ENOTFOUND", "ETIMEDOUT"]

/-- Embeds RabbitMQService._shouldTriggerReconnection: queue-scoped errors
(404 NOT_FOUND, "does not exist", 403) never trigger; protocol codes 504, 505,
506 trigger; otherwise the connection-level substrings decide.  The 406
delivery-tag protocol case is commented out in the source. -/
def shouldTriggerReconnection (e : AmqpError) : Bool :=
  let queueSpecific :=
    (e.code == some 404 && containsSubstr e.message "NOT_FOUND") ||
    containsSubstr e.message "does not exist" ||
    e.code == some 403
  let protocolErr := e.code == some 504 || e.code == some 505 || e.code == some 506
  if queueSpecific then false
  else if protocolErr then true
  else connectionErrorPatterns.any (fun p => containsSubstr e.message p)

/-- Outcome of the wrapped channel operation passed to safeChannelOperation. -/
inductive OpOutcome (α : Type)
  | ok (v : α)
  | err (e : AmqpError)

/-- Result of safeChannelOperation: emitted events plus the returned value or
the rethrown error. -/
structure SafeOpResult (α : Type) where
  emitted : List RabbitEvent
  result : Except AmqpError α

/-- Embeds RabbitMQService.safeChannelOperation (used by checkQueue,
createConsumer and cancelConsumer): throws and emits needsReconnection when
the channel is not ready; otherwise runs the operation and, on error, emits
needsReconnection exactly when the classifier fires, always rethrowing. -/
def safeChannelOperation {α : Type} (s : RabbitState) (op : OpOutcome α) : SafeOpResult α :=
  if isChannelReady s then
    match op with
    | .ok v => ⟨[], Except.ok v⟩
    | .err e =>
      if shouldTriggerReconnection e then ⟨[RabbitEvent.needsReconnection], Except.error e⟩
      else ⟨[], Except.error e⟩
  else
    ⟨[RabbitEvent.needsReconnection], Except.error ⟨none, "Channel not ready"⟩⟩

/-! ### WebhookService.js -/

/-- Outcome of one axios POST: the server responds with a status, or the
request fails without a response (network error or timeout). -/
inductive AxiosOutcome
  | response (status : Nat)
  | networkFailure (message : String)
deriving DecidableEq, Repr

/-- Running counters of WebhookService (response-time accumulators, which
depend on the wall clock, are not modelled). -/
structure WebhookStats where
  sent : Nat
  failed : Nat
  retries : Nat
deriving DecidableEq, Repr

/-- The value resolved by a successful sendWebhook call. -/
structure WebhookResponse where
  status : Nat
deriving DecidableEq, Repr

/-- The error thrown by sendWebhook: `status` is `error.response?.status`
(absent for network errors, timeouts and the invalid-URL throw). -/
structure WebhookError where
  status : Option Nat
  message : String
deriving DecidableEq, Repr

/-- Embeds WebhookService._updateStats (counter part). -/
def updateStats (success : Bool) (st : WebhookStats) : WebhookStats :=
  if success then { st with sent := st.sent + 1 } else { st with failed := st.failed + 1 }

/-- Embeds WebhookService.sendWebhook.  The axios call is configured with
`validateStatus: (status) => status < 500`, so any response with status
below 500 resolves as success and only 5xx responses or request failures
reject.  An invalid URL throws before any request is made. -/
def sendWebhook (url : String) (st : WebhookStats) (outcome : AxiosOutcome) :
    WebhookStats × Except WebhookError WebhookResponse :=
  if !isValidUrl url then
    (st, Except.error ⟨none, "Invalid webhook URL: " ++ url⟩)
  else
    match outcome with
    | .response status =>
      if status < 500 then (updateStats true st, Except.ok ⟨status⟩)
      else (updateStats false st,
            Except.error ⟨some status, "Request failed with status code " ++ toString status⟩)
    | .networkFailure m => (updateStats false st, Except.error ⟨none, m⟩)

/-- The attempt loop of WebhookService.sendWebhookWithRetry.  `outcomes k` is
what the HTTP request of attempt `k` does; `remaining` counts the attempts
still allowed.  Returns the final stats, the resolved value or the last
thrown error, and the number of attempts performed.  Each caught error
increments `retries`; a 4xx status aborts the loop (`break`). -/
def sendWebhookWithRetryGo (url : String) (outcomes : Nat → AxiosOutcome) (attempt : Nat) :
    Nat → WebhookStats → WebhookStats × Except WebhookError WebhookResponse × Nat
  | 0, st => (st, Except.error ⟨none, "undefined"⟩, 0)
  | remaining + 1, st =>
    match sendWebhook url st (outcomes attempt) with
    | (st1, Except.ok v) => (st1, Except.ok v, 1)
    | (st1, Except.error e) =>
      let st2 := { st1 with retries := st1.retries + 1 }
      let isClientError :=
        match e.status with
        | some s => decide (400 ≤ s) && decide (s < 500)
        | none => false
      if isClientError then (st2, Except.error e, 1)
      else
        match remaining with
        | 0 => (st2, Except.error e, 1)
        | r + 1 =>
          let next := sendWebhookWithRetryGo url outcomes (attempt + 1) (r + 1) st2
          (next.1, next.2.1, next.2.2 + 1)

/-- Per-instance configuration and counters of WebhookService
(`retryAttempts` defaults to 3, `retryDelay` to 1000, from config.js). -/
structure WebhookSvc where
  retryAttempts : Nat
  retryDelay : Nat
  stats : WebhookStats
deriving DecidableEq, Repr

/-- Embeds WebhookService.sendWebhookWithRetry as called by the message
processor (no per-call override, so `maxAttempts = this.retryAttempts`). -/
def sendWebhookWithRetry (url : String) (outcomes : Nat → AxiosOutcome) (svc : WebhookSvc) :
    WebhookSvc × Except WebhookError WebhookResponse × Nat :=
  let out := sendWebhookWithRetryGo url outcomes 1 svc.retryAttempts svc.stats
  ({ svc with stats := out.1 }, out.2.1, out.2.2)

/-! ### MessageProcessor.js -/

/-- The config snapshot handed to processMessage by the consumer engine. -/
structure QueueConfig where
  queue : String
  webhook : String
  minInterval : Int
  maxInterval : Int
  businessHours : Option BusinessHours
  paused : Bool
deriving DecidableEq, Repr

/-- MessageProcessor statistics. -/
structure ProcStats where
  processed : Nat
  failed : Nat
  skipped : Nat
  duplicates : Nat
  outsideBusinessHours : Nat
  paused : Nat
deriving DecidableEq, Repr

/-- The action of a disposition. -/
inductive Action
  | ack
  | nack
  | skip
deriving DecidableEq, Repr, BEq

/-- The disposition record returned by processMessage (extra payload fields
such as the webhook result are not modelled). -/
structure Disposition where
  action : Action
  reason : String
deriving DecidableEq, Repr

/-- A call from the processor into RabbitMQService. -/
inductive RabbitCall
  | ackCall (deliveryTag : Nat)
  | nackCall (deliveryTag : Nat) (allUpTo requeue : Bool)
deriving DecidableEq, Repr

/-- The mutable state touched by processMessage: the deduplication containers,
the processor counters and the webhook service. -/
structure ProcState where
  dedup : DedupState
  stats : ProcStats
  webhook : WebhookSvc
deriving DecidableEq, Repr

/-- The external world of one processMessage call: the clock, the current hour
in the configured timezone, whether JSON.parse succeeds on a given payload,
the HTTP outcome of each webhook attempt, whether fingerprint computation
throws, and whether an unexpected exception is raised inside the try block
during webhook dispatch (the step 8 safety net of the spec). -/
structure ProcEnv where
  currentHour : Int
  nowMs : Nat
  fingerprintThrows : Bool
  jsonParses : String → Bool
  webhookOutcomes : Nat → AxiosOutcome
  unexpectedError : Bool

/-- Result of one processMessage call. -/
structure ProcOutput where
  result : Disposition
  state : ProcState
  calls : List RabbitCall

/-- Embeds MessageProcessor.shouldRetryMessage: no retry on 4xx client
errors, retry on everything else. -/
def shouldRetryMessage (e : WebhookError) : Bool :=
  match e.status with
  | some s => if 400 ≤ s ∧ s < 500 then false else true
  | none => true

/-- Embeds MessageProcessor.processMessage.  The pipeline: null guard,
deduplication, pause gate, business-hours gate, mark processing, payload
parse, webhook dispatch with its success / retryable / terminal split, the
unexpected-exception catch, and the finally branch that removes the
fingerprint from the in-flight map on every exit path. -/
def processMessage (env : ProcEnv) (msg : Option Message) (cfg : QueueConfig)
    (s : ProcState) : ProcOutput :=
  match msg with
  | none => ⟨⟨Action.skip, "null_message"⟩, s, []⟩
  | some m =>
    let messageId := generateMessageId env.fingerprintThrows env.nowMs m
    let tryResult : Disposition × ProcState × List RabbitCall :=
      if isMessageProcessed messageId s.dedup then
        (⟨Action.skip, "duplicate"⟩,
         { s with stats := { s.stats with duplicates := s.stats.duplicates + 1,
                                          skipped := s.stats.skipped + 1 } },
         [])
      else if cfg.paused then
        (⟨Action.nack, "paused"⟩,
         { s with stats := { s.stats with paused := s.stats.paused + 1,
                                          skipped := s.stats.skipped + 1 } },
         [RabbitCall.nackCall m.fields.deliveryTag false true])
      else if !isWithinBusinessHours cfg.businessHours env.currentHour then
        (⟨Action.nack, "outside_business_hours"⟩,
         { s with stats := { s.stats with outsideBusinessHours := s.stats.outsideBusinessHours + 1,
                                          skipped := s.stats.skipped + 1 } },
         [RabbitCall.nackCall m.fields.deliveryTag false true])
      else
        let info : ProcessingInfo := ⟨env.nowMs, cfg.queue, m.fields.deliveryTag, cfg.webhook⟩
        let s1 := { s with dedup := markMessageProcessing messageId info s.dedup }
        if !env.jsonParses m.content then
          (⟨Action.ack, "parse_error"⟩,
           { s1 with dedup := markMessageProcessed messageId s1.dedup,
                     stats := { s1.stats with failed := s1.stats.failed + 1 } },
           [RabbitCall.ackCall m.fields.deliveryTag])
        else if env.unexpectedError then
          (⟨Action.nack, "unexpected_error"⟩,
           { s1 with stats := { s1.stats with failed := s1.stats.failed + 1 } },
           [RabbitCall.nackCall m.fields.deliveryTag false true])
        else
          match sendWebhookWithRetry cfg.webhook env.webhookOutcomes s1.webhook with
          | (svc', Except.ok _, _) =>
            (⟨Action.ack, "success"⟩,
             { s1 with webhook := svc',
                       dedup := markMessageProcessed messageId s1.dedup,
                       stats := { s1.stats with processed := s1.stats.processed + 1 } },
             [RabbitCall.ackCall m.fields.deliveryTag])
          | (svc', Except.error e, _) =>
            if shouldRetryMessage e then
              (⟨Action.nack, "webhook_retry"⟩,
               { s1 with webhook := svc',
                         stats := { s1.stats with failed := s1.stats.failed + 1 } },
               [RabbitCall.nackCall m.fields.deliveryTag false true])
            else
              (⟨Action.ack, "webhook_permanent_error"⟩,
               { s1 with webhook := svc',
                         dedup := markMessageProcessed messageId s1.dedup,
                         stats := { s1.stats with failed := s1.stats.failed + 1 } },
               [RabbitCall.ackCall m.fields.deliveryTag])
    ⟨tryResult.1,
     { tryResult.2.1 with
         dedup := removeMessageFromProcessing messageId tryResult.2.1.dedup },
     tryResult.2.2⟩

/-- Embeds the catch branch of ConsumerService.createMessageHandler (the
engine-level exception path): when an exception reaches the handler after
processMessage returned `result`, a nack is issued unless the message was
skipped (`result && result.action === 'skip'`). -/
def handlerCatchNacks (result : Option Disposition) : Bool :=
  match result with
  | some r => !(r.action == Action.skip)
  | none => true

/-- Raw input of MessageProcessor.validateQueueConfig (fields may be absent). -/
structure RawQueueConfig where
  queue : Option String
  webhook : String
  minInterval : Option Int
  maxInterval : Option Int
  businessHours : Option BusinessHours
deriving DecidableEq, Repr

/-- Result of validateQueueConfig. -/
structure ValidationResult where
  isValid : Bool
  errors : List String
  sanitizedMin : Int
  sanitizedMax : Int
deriving DecidableEq, Repr

/-- Embeds MessageProcessor.validateQueueConfig: queue-name check, URL check,
interval check after sanitisation, and the business-hours check
`start < 0 || start > 23 || end < 0 || end > 23 || start >= end`. -/
def validateQueueConfig (cfg : RawQueueConfig) : ValidationResult :=
  let e1 := if !isValidQueueName cfg.queue then ["Invalid queue name"] else []
  let e2 := if !isValidUrl cfg.webhook then ["Invalid webhook URL"] else []
  let sanitized := sanitizeIntervals cfg.minInterval cfg.maxInterval
  let e3 := if sanitized.2 ≤ sanitized.1 then
              ["Minimum interval must be less than maximum interval"] else []
  let e4 := match cfg.businessHours with
    | some bh =>
      if bh.startHour < 0 ∨ bh.startHour > 23 ∨ bh.endHour < 0 ∨ bh.endHour > 23 ∨
         bh.startHour ≥ bh.endHour then
        ["Invalid business hours configuration"]
      else []
    | none => []
  let errors := e1 ++ e2 ++ e3 ++ e4
  ⟨errors.isEmpty, errors, sanitized.1, sanitized.2⟩

/-! ### ReconnectionService.js

The source file contains two versions of the controller.  The first version's
shouldAttemptReconnection consults `rabbitMQService.isChannelReady()` between
the in-progress guard and the debounce guard; the second version omits that
check entirely.  Both are embedded; `channelReady` is what
`isChannelReady()` returns at the moment of the call and `now` is
`Date.now()`. -/

/-- The controller state consulted by shouldAttemptReconnection. -/
structure ReconnState where
  shuttingDown : Bool
  isReconnecting : Bool
  lastReconnectTime : Int
  reconnectAttempts : Nat
  maxAttempts : Nat
  debounceMs : Int
deriving DecidableEq, Repr

/-- Embeds the first version of ReconnectionService.shouldAttemptReconnection
(the one with the connection-healthy guard). -/
def shouldAttemptReconnectionV1 (s : ReconnState) (channelReady : Bool) (now : Int) : Bool :=
  if s.shuttingDown then false
  else if s.isReconnecting then false
  else if channelReady then false
  else if now - s.lastReconnectTime < s.debounceMs then false
  else if s.reconnectAttempts ≥ s.maxAttempts then false
  else true

/-- Embeds the second version of ReconnectionService.shouldAttemptReconnection,
which never reads `isChannelReady`; the `channelReady` argument is kept for
signature parity and is unused, exactly as in the source. -/
def shouldAttemptReconnectionV2 (s : ReconnState) (_channelReady : Bool) (now : Int) : Bool :=
  if s.shuttingDown then false
  else if s.isReconnecting then false
  else if now - s.lastReconnectTime < s.debounceMs then false
  else if s.reconnectAttempts ≥ s.maxAttempts then false
  else true

/-! ### ConsumerService.js / QueueController.js: persistence transitions -/

/-- The in-memory consumer record fields needed by the persistence-affecting
transitions. -/
structure ConsumerCfg where
  consumerTag : String
  paused : Bool
deriving DecidableEq, Repr

/-- The engine state restricted to what the persistence claims need: the
active-consumers map, the per-queue interval map, and the set of queue names
with a persisted configuration (C4, the persistence store). -/
structure EngineState where
  activeConsumers : List (String × ConsumerCfg)
  queueIntervals : List (String × Int)
  persisted : List String
deriving DecidableEq, Repr

/-- JS `Map.delete` on an association list. -/
def removeEntry {β : Type} (l : List (String × β)) (k : String) : List (String × β) :=
  l.filter (fun p => p.1 != k)

/-- Embeds PersistenceService.removeQueueConfig restricted to the key set. -/
def removeQueueConfig (persisted : List String) (q : String) : List String :=
  persisted.filter (fun n => n != q)

/-- Embeds the null-message branch of ConsumerService.createMessageHandler:
on consumer cancellation (the broker delivers null) the local state is cleared
AND the queue is removed from the persistence store. -/
def handleNullMessage (s : EngineState) (q : String) : EngineState :=
  { activeConsumers := removeEntry s.activeConsumers q,
    queueIntervals := removeEntry s.queueIntervals q,
    persisted := removeQueueConfig s.persisted q }

/-- Embeds ConsumerService.stopConsuming: throws (`none`) when the queue is
not being consumed; otherwise clears local state and removes the persisted
configuration only when `reason === 'manual'`. -/
def stopConsuming (s : EngineState) (q reason : String) : Option EngineState :=
  match s.activeConsumers.lookup q with
  | none => none
  | some _ =>
    some { activeConsumers := removeEntry s.activeConsumers q,
           queueIntervals := removeEntry s.queueIntervals q,
           persisted := if reason = "manual" then removeQueueConfig s.persisted q
                        else s.persisted }

/-- Embeds ConsumerService.handleExternallyDeletedQueue: clears local state
(without cancelling at the broker) and always removes the persisted entry. -/
def handleExternallyDeletedQueue (s : EngineState) (q : String) : EngineState :=
  { activeConsumers := removeEntry s.activeConsumers q,
    queueIntervals := removeEntry s.queueIntervals q,
    persisted := removeQueueConfig s.persisted q }

/-- Embeds ConsumerService.handleConsumerCancelled (the broker `cancel`
event): the queue owning the consumer tag is cleared locally and removed from
the persistence store. -/
def handleConsumerCancelled (s : EngineState) (tag : String) : EngineState :=
  match s.activeConsumers.find? (fun p => p.2.consumerTag == tag) with
  | none => s
  | some entry =>
    { activeConsumers := removeEntry s.activeConsumers entry.1,
      queueIntervals := removeEntry s.queueIntervals entry.1,
      persisted := removeQueueConfig s.persisted entry.1 }

/-- Embeds QueueController.clearPersistedConfigs (DELETE /clear-configs via
PersistenceService.clearAll). -/
def clearAllConfigs (s : EngineState) : EngineState :=
  { s with persisted := [] }

/-- Embeds QueueController.removePersistedQueue (DELETE /persisted-queue/:q). -/
def deletePersistedQueue (s : EngineState) (q : String) : EngineState :=
  { s with persisted := removeQueueConfig s.persisted q }

/-- Embeds QueueController.cleanupOrphanedConfigs (POST /cleanup-orphans):
every persisted queue whose broker checkQueue reports not-found is removed.
`queueExists` is the probe outcome per queue. -/
def cleanupOrphanedConfigs (s : EngineState) (queueExists : String → Bool) : EngineState :=
  { s with persisted := s.persisted.filter queueExists }

/-- Embeds the shutdown loop of ConsumerService.shutdown: every active queue
is stopped with reason `'shutdown'`. -/
def shutdownAllConsumers (s : EngineState) : EngineState :=
  (s.activeConsumers.map (fun p => p.1)).foldl
    (fun st q => (stopConsuming st q "shutdown").getD st) s

/-! ### Concrete inputs used by witnesses and counterexamples -/

/-- A webhook attempt outcome the retry loop treats as retryable: a 5xx
response, a network error or a timeout (the latter two have no response). -/
def isRetryableOutcome : AxiosOutcome → Bool
  | .response status => decide (500 ≤ status)
  | .networkFailure _ => true

/-- A sample delivery: tag 1, payload `{}`. -/
def msgEx : Message := ⟨⟨1⟩, "{}"⟩

/-- A sample queue configuration snapshot. -/
def cfgEx : QueueConfig :=
  ⟨"orders", "http://example.com/hook", 30000, 110000, some ⟨8, 21⟩, false⟩

/-- A fresh processor state (empty dedup containers, zero counters, default
webhook service configuration). -/
def stateEx : ProcState := ⟨⟨[], []⟩, ⟨0, 0, 0, 0, 0, 0⟩, ⟨3, 1000, ⟨0, 0, 0⟩⟩⟩

/-- Processor state in which the fingerprint of `msgEx` is already marked
processed. -/
def stateDupEx : ProcState := ⟨⟨["1_e30="], []⟩, ⟨0, 0, 0, 0, 0, 0⟩, ⟨3, 1000, ⟨0, 0, 0⟩⟩⟩

/-- Environment for the 4xx scenario: hour 10, payload parses, every webhook
attempt receives an HTTP 404 response. -/
def env404 : ProcEnv :=
  ⟨10, 0, false, fun _ => true, fun _ => AxiosOutcome.response 404, false⟩

/-- Environment for the 5xx scenario: every webhook attempt receives an HTTP
500 response. -/
def env500 : ProcEnv :=
  ⟨10, 0, false, fun _ => true, fun _ => AxiosOutcome.response 500, false⟩

/-- A webhook service instance with the default 3 retry attempts. -/
def svcEx : WebhookSvc := ⟨3, 1000, ⟨0, 0, 0⟩⟩

/-- A broker state whose channel is absent (not ready). -/
def rabbitNotReady : RabbitState := ⟨none, none, false⟩

/-- A broker state with a healthy connection and channel. -/
def rabbitReady : RabbitState := ⟨some ⟨false, false⟩, some ⟨false, false⟩, false⟩

/-- The AMQP 406 unknown-delivery-tag error. -/
def err406 : AmqpError := ⟨some 406, "PRECONDITION_FAILED - unknown delivery tag 1"⟩

/-- An engine state with one active, persisted queue. -/
def engineEx : EngineState :=
  ⟨[("orders", ⟨"ctag-1", false⟩)], [("orders", 30000)], ["orders"]⟩

/-- The engine state after stopping `orders` with a non-manual reason. -/
def engineExStopped : EngineState := ⟨[], [], ["orders"]⟩

/-- A raw queue configuration whose business hours are `{8, 24}` (admitted by
the spec's data model: 0 ≤ start < end ≤ 24). -/
def cfgHours24 : RawQueueConfig :=
  ⟨some "orders", "http://example.com/hook", some 30000, some 110000, some ⟨8, 24⟩⟩

/-- A raw queue configuration whose business hours are `{8, 21}`. -/
def cfgHours21 : RawQueueConfig :=
  ⟨some "orders", "http://example.com/hook", some 30000, some 110000, some ⟨8, 21⟩⟩

/-! ### Shared lemmas -/

/-- After removeMessageFromProcessing, the removed fingerprint is absent from
the in-flight map. -/
theorem lookup_removeMessageFromProcessing (id : String) (s : DedupState) :
    (removeMessageFromProcessing id s).processingMessages.lookup id = none := by
  show (s.processingMessages.filter (fun p => p.1 != id)).lookup id = none
  induction s.processingMessages with
  | nil => rfl
  | cons h t ih =>
    by_cases hx : h.1 = id
    · simpa [List.filter_cons, hx] using ih
    · have hbeq : (id == h.1) = false := by
        simp [Ne.symm hx]
      simp [List.filter_cons, hx, List.lookup, hbeq, ih]

/-- stopConsuming with reason `'shutdown'` never changes the persisted set. -/
theorem shutdown_foldl_preserves_persisted (qs : List String) (st : EngineState) :
    (qs.foldl (fun acc q => (stopConsuming acc q "shutdown").getD acc) st).persisted
      = st.persisted := by
  induction qs generalizing st with
  | nil => rfl
  | cons q qs ih =>
    rw [List.foldl_cons, ih]
    cases hlk : stopConsuming st q "shutdown" with
    | none => simp [hlk]
    | some s2 =>
      simp only [hlk, Option.getD_some]
      unfold stopConsuming at hlk
      cases hl : st.activeConsumers.lookup q with
      | none => rw [hl] at hlk; cases hlk
      | some c =>
        rw [hl] at hlk
        injection hlk with h
        rw [← h]
        show (if "shutdown" = "manual" then removeQueueConfig st.persisted q
              else st.persisted) = st.persisted
        rw [if_neg (by decide)]

/-! ### Claim theorems -/

/-- C9: for every pair of interval inputs, including missing, zero, or
negative values, sanitizeIntervals returns (min, max) with min ≥ 1000 and
max ≥ min + 1000. -/
theorem sanitizeIntervalsBounds (minInterval maxInterval : Option Int) :
    1000 ≤ (sanitizeIntervals minInterval maxInterval).1 ∧
    (sanitizeIntervals minInterval maxInterval).1 + 1000 ≤
      (sanitizeIntervals minInterval maxInterval).2 := by
  constructor
  · exact le_max_left _ _
  · exact le_max_left _ _

/-- C6 counterexample: the second version of shouldAttemptReconnection in
ReconnectionService.js returns true even though the channel is ready (state:
not shutting down, not reconnecting, debounce elapsed, attempts below max). -/
theorem secondVersionAttemptsWhileChannelReady :
    shouldAttemptReconnectionV2 ⟨false, false, 0, 0, 10, 3000⟩ true 5000 = true := by
  decide

/-- C6 (amended): the first version of shouldAttemptReconnection returns
false whenever the channel is ready, so that version never schedules or
starts an attempt while healthy; the second version in the same source file
does not consult channel readiness at all, so its answer is independent of
it. -/
theorem channelReadyReconnectionGuard :
    (∀ (s : ReconnState) (now : Int), shouldAttemptReconnectionV1 s true now = false) ∧
    (∀ (s : ReconnState) (r1 r2 : Bool) (now : Int),
        shouldAttemptReconnectionV2 s r1 now = shouldAttemptReconnectionV2 s r2 now) := by
  constructor
  · intro s now
    cases hs : s.shuttingDown <;> cases hr : s.isReconnecting <;>
      simp [shouldAttemptReconnectionV1, hs, hr]
  · intro s r1 r2 now
    rfl

/-- C5 counterexample: a consumer cancellation delivered as a null message
removes the queue's configuration from the persistence store, although the
claim lists null-message cancellation among the transitions that leave it in
place. -/
theorem nullMessageRemovesPersistedConfig :
    engineEx.persisted.contains "orders" = true ∧
    (handleNullMessage engineEx "orders").persisted.contains "orders" = false := by
  decide

/-- C5 (amended): the persisted configuration is removed by manual stop,
external-deletion handling, clear-configs, the explicit persisted-queue
delete, AND by consumer cancellation (null message or the broker cancel
event); stops with any non-manual reason (shutdown, queue_empty, ...) leave
it in place, as does the engine shutdown loop. -/
theorem persistedConfigRemovalTransitions (s s' : EngineState) (q reason : String)
    (hstop : stopConsuming s q reason = some s') :
    (reason ≠ "manual" → s'.persisted = s.persisted) ∧
    (reason = "manual" → s'.persisted = removeQueueConfig s.persisted q) ∧
    ((handleNullMessage s q).persisted = removeQueueConfig s.persisted q) ∧
    ((handleExternallyDeletedQueue s q).persisted = removeQueueConfig s.persisted q) ∧
    ((clearAllConfigs s).persisted = []) ∧
    ((deletePersistedQueue s q).persisted = removeQueueConfig s.persisted q) ∧
    ((shutdownAllConsumers s).persisted = s.persisted) := by
  unfold stopConsuming at hstop
  cases hl : s.activeConsumers.lookup q with
  | none => rw [hl] at hstop; cases hstop
  | some c =>
    rw [hl] at hstop
    injection hstop with h
    refine ⟨?_, ?_, rfl, rfl, rfl, rfl, ?_⟩
    · intro hr
      rw [← h]
      show (if reason = "manual" then removeQueueConfig s.persisted q
            else s.persisted) = s.persisted
      rw [if_neg hr]
    · intro hr
      rw [← h]
      show (if reason = "manual" then removeQueueConfig s.persisted q
            else s.persisted) = removeQueueConfig s.persisted q
      rw [if_pos hr]
    · exact shutdown_foldl_preserves_persisted _ s

/-- C5 witness: stopping the sample queue with reason `'shutdown'` succeeds
and leaves the persisted set unchanged. -/
theorem persistedConfigRemovalWitness :
    stopConsuming engineEx "orders" "shutdown" = some engineExStopped ∧
    engineExStopped.persisted = engineEx.persisted :=
  ⟨by decide,
   (persistedConfigRemovalTransitions engineEx engineExStopped "orders" "shutdown"
      (by decide)).1 (by decide)⟩

/-- C3 counterexample: business hours {8, 24} satisfy 0 ≤ start < end ≤ 24,
yet validateQueueConfig reports the business-hours validation error (the
validator rejects end_hour > 23). -/
theorem businessHoursEndHour24Rejected :
    ((0:Int) ≤ 8 ∧ (8:Int) < 24 ∧ (24:Int) ≤ 24) ∧
    (validateQueueConfig cfgHours24).errors.contains
      "Invalid business hours configuration" = true := by
  decide

/-- C3 (amended): validateQueueConfig reports no business-hours validation
error exactly on the validator's own range, 0 ≤ start < end ≤ 23 (end = 24 is
excluded, unlike the data-model bound end ≤ 24). -/
theorem businessHoursWithinValidatorBounds (cfg : RawQueueConfig) (bh : BusinessHours)
    (hbh : cfg.businessHours = some bh) (h0 : 0 ≤ bh.startHour)
    (hlt : bh.startHour < bh.endHour) (h23 : bh.endHour ≤ 23) :
    (validateQueueConfig cfg).errors.contains
      "Invalid business hours configuration" = false := by
  have hcond : ¬(bh.startHour < 0 ∨ bh.startHour > 23 ∨ bh.endHour < 0 ∨
      bh.endHour > 23 ∨ bh.startHour ≥ bh.endHour) := by omega
  simp only [validateQueueConfig, hbh]
  rw [if_neg hcond]
  split <;> split <;> split <;> decide

/-- C3 witness: hours {8, 21} are accepted without the business-hours error. -/
theorem businessHoursWithinValidatorBoundsWitness :
    (validateQueueConfig cfgHours21).errors.contains
      "Invalid business hours configuration" = false :=
  businessHoursWithinValidatorBounds cfgHours21 ⟨8, 21⟩ (by decide) (by decide)
    (by decide) (by decide)

/-- C1: evaluation of the code at the failing input.  Every webhook attempt
receives an HTTP 404 response, yet processMessage returns {ack, success} and
increments `processed` (not `failed`): sendWebhook's
`validateStatus: status < 500` makes axios resolve 4xx responses as success,
so the webhook_permanent_error branch is unreachable for 4xx responses. -/
theorem clientErrorResponseTreatedAsSuccess :
    (processMessage env404 (some msgEx) cfgEx stateEx).result = ⟨Action.ack, "success"⟩ ∧
    (processMessage env404 (some msgEx) cfgEx stateEx).state.stats.processed = 1 ∧
    (processMessage env404 (some msgEx) cfgEx stateEx).state.stats.failed = 0 ∧
    (processMessage env404 (some msgEx) cfgEx stateEx).result.reason ≠
      "webhook_permanent_error" := by
  decide

/-- C7: ackMessage and nackMessage are no-ops when the channel is not ready
(no channel operation, normal return), and an AMQP 406 error with a
delivery-tag message thrown by the channel is swallowed: normal return, no
needsReconnection emitted. -/
theorem ackNackNoopNotReadyAnd406Swallowed (m : Message) (s s2 : RabbitState)
    (o : ChannelOutcome) (e : AmqpError) (allUpTo requeue : Bool)
    (hready : isChannelReady s = false)
    (_hcode : e.code = some 406)
    (_hmsg : containsSubstr e.message "delivery tag" = true) :
    ackMessage (some m) s o = ⟨[], [], none⟩ ∧
    nackMessage (some m) allUpTo requeue s o = ⟨[], [], none⟩ ∧
    (ackMessage (some m) s2 (ChannelOutcome.err e)).thrown = none ∧
    (ackMessage (some m) s2 (ChannelOutcome.err e)).emitted = [] ∧
    (nackMessage (some m) allUpTo requeue s2 (ChannelOutcome.err e)).thrown = none ∧
    (nackMessage (some m) allUpTo requeue s2 (ChannelOutcome.err e)).emitted = [] := by
  refine ⟨?_, ?_, ?_, ?_, ?_, ?_⟩
  · simp [ackMessage, hready]
  · simp [nackMessage, hready]
  · cases hcr : isChannelReady s2 <;> simp [ackMessage, hcr]
  · cases hcr : isChannelReady s2 <;> simp [ackMessage, hcr]
  · cases hcr : isChannelReady s2 <;> simp [nackMessage, hcr]
  · cases hcr : isChannelReady s2 <;> simp [nackMessage, hcr]

/-- C7 witness: delivery tag 1, a channel-less broker state, and the concrete
406 unknown-delivery-tag error. -/
theorem ackNackNoopNotReadyAnd406SwallowedWitness :
    ackMessage (some msgEx) rabbitNotReady ChannelOutcome.ok = ⟨[], [], none⟩ ∧
    nackMessage (some msgEx) false true rabbitNotReady ChannelOutcome.ok = ⟨[], [], none⟩ ∧
    (ackMessage (some msgEx) rabbitReady (ChannelOutcome.err err406)).thrown = none ∧
    (ackMessage (some msgEx) rabbitReady (ChannelOutcome.err err406)).emitted = [] ∧
    (nackMessage (some msgEx) false true rabbitReady (ChannelOutcome.err err406)).thrown
      = none ∧
    (nackMessage (some msgEx) false true rabbitReady (ChannelOutcome.err err406)).emitted
      = [] :=
  ackNackNoopNotReadyAnd406Swallowed msgEx rabbitNotReady rabbitReady ChannelOutcome.ok
    err406 false true (by decide) (by decide) (by decide)

/-- C10: for every channel outcome, not only the 406 delivery-tag class,
ackMessage and nackMessage return normally — they never propagate an
exception and never emit needsReconnection — while an error inside an
operation routed through safeChannelOperation is fed to the reconnection
classifier: needsReconnection is emitted exactly when the classifier fires,
and the error is rethrown. -/
theorem ackNackNeverThrowOrEmit (msg : Option Message) (s s2 : RabbitState)
    (o : ChannelOutcome) (allUpTo requeue : Bool) (e : AmqpError)
    (hready : isChannelReady s2 = true) :
    (ackMessage msg s o).thrown = none ∧
    (ackMessage msg s o).emitted = [] ∧
    (nackMessage msg allUpTo requeue s o).thrown = none ∧
    (nackMessage msg allUpTo requeue s o).emitted = [] ∧
    (safeChannelOperation s2 (OpOutcome.err e : OpOutcome Unit)).emitted =
      (if shouldTriggerReconnection e then [RabbitEvent.needsReconnection] else []) ∧
    (safeChannelOperation s2 (OpOutcome.err e : OpOutcome Unit)).result = Except.error e := by
  refine ⟨?_, ?_, ?_, ?_, ?_, ?_⟩
  · cases msg <;> cases o <;> cases hcr : isChannelReady s <;> simp [ackMessage, hcr]
  · cases msg <;> cases o <;> cases hcr : isChannelReady s <;> simp [ackMessage, hcr]
  · cases msg <;> cases o <;> cases hcr : isChannelReady s <;> simp [nackMessage, hcr]
  · cases msg <;> cases o <;> cases hcr : isChannelReady s <;> simp [nackMessage, hcr]
  · cases htr : shouldTriggerReconnection e <;>
      simp [safeChannelOperation, hready, htr]
  · cases htr : shouldTriggerReconnection e <;>
      simp [safeChannelOperation, hready, htr]

/-- C10 witness: a ready channel throwing a non-406 connection error from
`channel.ack` is still swallowed, while the same error through
safeChannelOperation triggers needsReconnection. -/
theorem ackNackNeverThrowOrEmitWitness :
    (ackMessage (some msgEx) rabbitReady
        (ChannelOutcome.err ⟨none, "Channel closed"⟩)).thrown = none ∧
    (ackMessage (some msgEx) rabbitReady
        (ChannelOutcome.err ⟨none, "Channel closed"⟩)).emitted = [] ∧
    (nackMessage (some msgEx) false true rabbitReady
        (ChannelOutcome.err ⟨none, "Channel closed"⟩)).thrown = none ∧
    (nackMessage (some msgEx) false true rabbitReady
        (ChannelOutcome.err ⟨none, "Channel closed"⟩)).emitted = [] ∧
    (safeChannelOperation rabbitReady
        (OpOutcome.err ⟨none, "Channel closed"⟩ : OpOutcome Unit)).emitted =
      (if shouldTriggerReconnection ⟨none, "Channel closed"⟩ then
        [RabbitEvent.needsReconnection] else []) ∧
    (safeChannelOperation rabbitReady
        (OpOutcome.err ⟨none, "Channel closed"⟩ : OpOutcome Unit)).result =
      Except.error ⟨none, "Channel closed"⟩ :=
  ackNackNeverThrowOrEmit (some msgEx) rabbitReady rabbitReady
    (ChannelOutcome.err ⟨none, "Channel closed"⟩) false true
    ⟨none, "Channel closed"⟩ (by decide)

/-- C2: once a fingerprint is in the processed set, processMessage on a
delivery with that fingerprint returns {skip, duplicate}, increments the
duplicates and skipped counters, performs no broker call at all, and the
engine's message-handler exception path issues no nack for it either. -/
theorem duplicateFingerprintSkipsWithoutBrokerOps (env : ProcEnv) (m : Message)
    (cfg : QueueConfig) (s : ProcState)
    (hdup : isMessageProcessed (generateMessageId env.fingerprintThrows env.nowMs m)
        s.dedup = true) :
    (processMessage env (some m) cfg s).result = ⟨Action.skip, "duplicate"⟩ ∧
    (processMessage env (some m) cfg s).state.stats.duplicates = s.stats.duplicates + 1 ∧
    (processMessage env (some m) cfg s).state.stats.skipped = s.stats.skipped + 1 ∧
    (processMessage env (some m) cfg s).calls = [] ∧
    handlerCatchNacks (some (processMessage env (some m) cfg s).result) = false := by
  simp [processMessage, hdup, handlerCatchNacks, removeMessageFromProcessing]
  rfl

/-- C2 witness: the fingerprint of the sample delivery is pre-marked
processed and the duplicate is skipped. -/
theorem duplicateFingerprintSkipsWitness :
    isMessageProcessed (generateMessageId env404.fingerprintThrows env404.nowMs msgEx)
      stateDupEx.dedup = true ∧
    (processMessage env404 (some msgEx) cfgEx stateDupEx).result =
      ⟨Action.skip, "duplicate"⟩ :=
  ⟨by decide,
   (duplicateFingerprintSkipsWithoutBrokerOps env404 msgEx cfgEx stateDupEx (by decide)).1⟩

/-- C8: every processMessage call returns exactly one disposition — no broker
call on the skip paths, exactly one ack or nack otherwise — and the finally
branch removes the fingerprint from the in-flight map on every exit path
(the null-delivery guard returns before a fingerprint exists). -/
theorem processMessageOneDispositionInFlightCleanup (env : ProcEnv) (m : Message)
    (cfg : QueueConfig) (s : ProcState) :
    ((processMessage env (some m) cfg s).state.dedup.processingMessages.lookup
        (generateMessageId env.fingerprintThrows env.nowMs m) = none) ∧
    ((processMessage env (some m) cfg s).result.action = Action.skip →
        (processMessage env (some m) cfg s).calls = []) ∧
    ((processMessage env (some m) cfg s).result.action ≠ Action.skip →
        (processMessage env (some m) cfg s).calls.length = 1) ∧
    ((processMessage env none cfg s).result.action = Action.skip ∧
     (processMessage env none cfg s).calls = []) := by
  refine ⟨?_, ?_, ?_, ⟨rfl, rfl⟩⟩
  · exact lookup_removeMessageFromProcessing _ _
  · simp only [processMessage]
    repeat' split
    all_goals simp
  · simp only [processMessage]
    repeat' split
    all_goals simp

/-- C8 witness: the sample happy-path call leaves no in-flight entry and
issues exactly one broker call. -/
theorem processMessageOneDispositionWitness :
    ((processMessage env404 (some msgEx) cfgEx stateEx).state.dedup.processingMessages.lookup
        (generateMessageId env404.fingerprintThrows env404.nowMs msgEx) = none) ∧
    (processMessage env404 (some msgEx) cfgEx stateEx).calls.length = 1 :=
  ⟨(processMessageOneDispositionInFlightCleanup env404 msgEx cfgEx stateEx).1,
   (processMessageOneDispositionInFlightCleanup env404 msgEx cfgEx stateEx).2.2.1
     (by decide)⟩

/-- C4 counterexample: with the default 3 attempts all failing with HTTP 500,
sendWebhookWithRetry performs 3 attempts but the retries counter increases by
3, not by 3 − 1 = 2: `this.stats.retries++` runs in the catch of every failed
attempt, including the last. -/
theorem retriesIncrementPerFailedAttempt :
    (sendWebhookWithRetry "http://example.com/hook"
        (fun _ => AxiosOutcome.response 500) svcEx).2.2 = 3 ∧
    (sendWebhookWithRetry "http://example.com/hook"
        (fun _ => AxiosOutcome.response 500) svcEx).1.stats.retries = 3 ∧
    (sendWebhookWithRetry "http://example.com/hook"
        (fun _ => AxiosOutcome.response 500) svcEx).1.stats.retries ≠ 3 - 1 := by
  decide

/-- One-step unfolding of the retry loop for a positive attempt budget. -/
theorem retryGoSucc (url : String) (outcomes : Nat → AxiosOutcome) (attempt : Nat)
    (remaining : Nat) (st : WebhookStats) :
    sendWebhookWithRetryGo url outcomes attempt (remaining + 1) st =
      match sendWebhook url st (outcomes attempt) with
      | (st1, Except.ok v) => (st1, Except.ok v, 1)
      | (st1, Except.error e) =>
        let st2 := { st1 with retries := st1.retries + 1 }
        let isClientError :=
          match e.status with
          | some s => decide (400 ≤ s) && decide (s < 500)
          | none => false
        if isClientError then (st2, Except.error e, 1)
        else
          match remaining with
          | 0 => (st2, Except.error e, 1)
          | r + 1 =>
            let next := sendWebhookWithRetryGo url outcomes (attempt + 1) (r + 1) st2
            (next.1, next.2.1, next.2.2 + 1) := by
  rw [sendWebhookWithRetryGo.eq_def]

/-- Helper for C4: when the URL is valid and every attempt's outcome is
retryable (5xx, network error or timeout), the retry loop runs all remaining
attempts, adds one `failed` and one `retries` per attempt, and ends by
throwing a retryable error. -/
theorem retryLoopAllFail (url : String) (outcomes : Nat → AxiosOutcome)
    (hurl : isValidUrl url = true)
    (hout : ∀ k, isRetryableOutcome (outcomes k) = true) :
    ∀ (remaining attempt : Nat) (st : WebhookStats), 1 ≤ remaining →
    ∃ e : WebhookError,
      sendWebhookWithRetryGo url outcomes attempt remaining st =
        (⟨st.sent, st.failed + remaining, st.retries + remaining⟩,
         Except.error e, remaining) ∧
      shouldRetryMessage e = true := by
  intro remaining
  induction remaining with
  | zero => intro attempt st h; omega
  | succ n ih =>
    intro attempt st _
    have hk := hout attempt
    have hsend : ∃ e : WebhookError,
        sendWebhook url st (outcomes attempt) =
          ({ st with failed := st.failed + 1 }, Except.error e) ∧
        shouldRetryMessage e = true ∧
        (match e.status with
         | some s => decide (400 ≤ s) && decide (s < 500)
         | none => false) = false := by
      cases hox : outcomes attempt with
      | response status =>
        rw [hox] at hk
        have h500 : 500 ≤ status := by simpa [isRetryableOutcome] using hk
        refine ⟨⟨some status, "Request failed with status code " ++ toString status⟩, ?_, ?_, ?_⟩
        · simp [sendWebhook, hurl, updateStats, Nat.not_lt.mpr h500]
        · simp [shouldRetryMessage]
          omega
        · simp
          omega
      | networkFailure msg =>
        refine ⟨⟨none, msg⟩, ?_, ?_, ?_⟩
        · simp [sendWebhook, hurl, updateStats]
        · simp [shouldRetryMessage]
        · simp
    obtain ⟨e, he, hre, hcl⟩ := hsend
    cases n with
    | zero =>
      refine ⟨e, ?_, hre⟩
      rw [retryGoSucc, he]
      simp [hcl]
    | succ r =>
      obtain ⟨e2, he2, hre2⟩ :=
        ih (attempt + 1) ⟨st.sent, st.failed + 1, st.retries + 1⟩ (by omega)
      refine ⟨e2, ?_, hre2⟩
      rw [retryGoSucc, he]
      simp only [hcl]
      simp only [Bool.false_eq_true, if_false]
      have hst2 : ({ { st with failed := st.failed + 1 } with
          retries := { st with failed := st.failed + 1 }.retries + 1 } : WebhookStats) =
          ⟨st.sent, st.failed + 1, st.retries + 1⟩ := rfl
      rw [hst2, he2]
      simp [Prod.mk.injEq, WebhookStats.mk.injEq]
      omega

/-- C4 (amended): when all configured attempts fail with a retryable error,
sendWebhookWithRetry performs exactly N attempts, the disposition is
{nack, webhook_retry} with `failed` incremented by 1, and the retries counter
increases by exactly N — one increment per failed attempt, including the
last — rather than by N − 1. -/
theorem allRetryableFailuresRetryAccounting (env : ProcEnv) (m : Message)
    (cfg : QueueConfig) (s : ProcState)
    (hN : 1 ≤ s.webhook.retryAttempts)
    (hurl : isValidUrl cfg.webhook = true)
    (hout : ∀ k, isRetryableOutcome (env.webhookOutcomes k) = true)
    (hdup : isMessageProcessed (generateMessageId env.fingerprintThrows env.nowMs m)
        s.dedup = false)
    (hp : cfg.paused = false)
    (hbh : isWithinBusinessHours cfg.businessHours env.currentHour = true)
    (hjson : env.jsonParses m.content = true)
    (hux : env.unexpectedError = false) :
    ((sendWebhookWithRetry cfg.webhook env.webhookOutcomes s.webhook).2.2 =
        s.webhook.retryAttempts) ∧
    ((processMessage env (some m) cfg s).result = ⟨Action.nack, "webhook_retry"⟩) ∧
    ((processMessage env (some m) cfg s).state.stats.failed = s.stats.failed + 1) ∧
    ((processMessage env (some m) cfg s).state.webhook.stats.retries =
        s.webhook.stats.retries + s.webhook.retryAttempts) := by
  obtain ⟨e, he, hre⟩ := retryLoopAllFail cfg.webhook env.webhookOutcomes hurl hout
    s.webhook.retryAttempts 1 s.webhook.stats hN
  have hw : sendWebhookWithRetry cfg.webhook env.webhookOutcomes s.webhook =
      ({ s.webhook with stats := ⟨s.webhook.stats.sent,
          s.webhook.stats.failed + s.webhook.retryAttempts,
          s.webhook.stats.retries + s.webhook.retryAttempts⟩ },
       Except.error e, s.webhook.retryAttempts) := by
    simp only [sendWebhookWithRetry, he]
  refine ⟨by rw [hw], ?_, ?_, ?_⟩ <;>
    simp [processMessage, hdup, hp, hbh, hjson, hux, hw, hre,
      removeMessageFromProcessing]

/-- C4 witness: three attempts all receiving HTTP 500 yield {nack,
webhook_retry} and three retry increments. -/
theorem allRetryableFailuresRetryAccountingWitness :
    ((sendWebhookWithRetry cfgEx.webhook env500.webhookOutcomes stateEx.webhook).2.2 =
        stateEx.webhook.retryAttempts) ∧
    ((processMessage env500 (some msgEx) cfgEx stateEx).result =
        ⟨Action.nack, "webhook_retry"⟩) ∧
    ((processMessage env500 (some msgEx) cfgEx stateEx).state.webhook.stats.retries =
        stateEx.webhook.stats.retries + stateEx.webhook.retryAttempts) :=
  ⟨(allRetryableFailuresRetryAccounting env500 msgEx cfgEx stateEx (by decide) (by decide)
      (fun _ => rfl) (by decide) (by decide) (by decide) (by decide) (by decide)).1,
   (allRetryableFailuresRetryAccounting env500 msgEx cfgEx stateEx (by decide) (by decide)
      (fun _ => rfl) (by decide) (by decide) (by decide) (by decide) (by decide)).2.1,
   (allRetryableFailuresRetryAccounting env500 msgEx cfgEx stateEx (by decide) (by decide)
      (fun _ => rfl) (by decide) (by decide) (by decide) (by decide) (by decide)).2.2.2⟩

end Consumer
